import Mathlib

/-!
Verification of the OutbackSPC ↔ Venus OS bridge core logic.

Shallow embedding of the Python sources:
- `modules/state_machine.py` : anti-double-counting PV/AC reconciliation
  (`compute_pv_ac`), operating-regime classification (`classify_state`);
- `blueProbe.py` : `clamp`, `PvForwardStore` (forward-energy counter),
  `GeneratorService` (generator hysteresis controller), `OutbackReader`
  backoff scheduling;
- `outback_venus.py` : the inline generator control step of the main loop;
- `modules/ble_client.py` : `BleOutbackClient` round-based snapshot
  acquisition with throttle/busy guards and a backoff ladder.

Python floats are modelled as exact rationals (ℚ); the local date string is
modelled as an abstract `String`; the nondeterministic environment of a BLE
round (connect success, characteristic reads, RSSI, clock, jitter) is an
explicit oracle record passed to the `snapshot` function.
-/

namespace StateMachine

/-- Outback inverter state constants from `state_machine.py`. -/
def STATE_OFF : Int := 0

def STATE_INVERT : Int := 1

def STATE_CHARGE : Int := 2

def STATE_PASSTHROUGH : Int := 3

/-- `clamp(x, lo, hi) = max(lo, min(hi, x))` from `state_machine.py`. -/
def clamp (x lo hi : ℚ) : ℚ := max lo (min hi x)

/-- `compute_pv_ac(P_L1_out, P_batt) = clamp(P_L1_out - max(0, -P_batt), 0, P_L1_out)`
from `state_machine.py`. -/
def compute_pv_ac (P_L1_out P_batt : ℚ) : ℚ :=
  clamp (P_L1_out - max 0 (-P_batt)) 0 P_L1_out

/-- `classify_state` from `state_machine.py`: regime classification with
hysteresis band `eps`, first matching rule wins. -/
def classify_state (pv_ac l1_out batt_p : ℚ) (outback_state : Int)
    (gen_power : ℚ) (eps : ℚ) : String :=
  if outback_state = STATE_PASSTHROUGH ∧ gen_power > eps then "GEN_PASSTHROUGH"
  else if pv_ac ≤ eps ∧ l1_out > eps then "NIGHT_BATT"
  else if |batt_p| ≤ eps ∧ |pv_ac - l1_out| ≤ eps then "DAY_PV_DIRECT"
  else if pv_ac - l1_out ≥ eps then "DAY_PV_SURPLUS"
  else if pv_ac - l1_out ≤ -eps ∧ batt_p < -eps then "DAY_PV_PLUS_BATT"
  else if pv_ac > eps then "DAY_PV_DIRECT"
  else "NIGHT_BATT"

end StateMachine

namespace BlueProbe

/-- `clamp(v, lo, hi)` from `blueProbe.py`:
`lo if v < lo else hi if v > hi else v`. -/
def clamp (v lo hi : ℚ) : ℚ := if v < lo then lo else if v > hi then hi else v

/-- State of `PvForwardStore` from `blueProbe.py` (the persisted counter
fields and the dirty flag; the file path and debounce clock belong to the
persistence layer and are not part of the counter semantics). -/
structure PvForwardStore where
  total_kwh : ℚ
  day_kwh : ℚ
  day_date : String
  dirty : Bool

/-- `PvForwardStore.integrate(p_w, dt_s)` from `blueProbe.py`; the ambient
local date `now_local_date_str()` is passed explicitly as `cur_date`. -/
def PvForwardStore.integrate (s : PvForwardStore) (cur_date : String)
    (p_w dt_s : ℚ) : PvForwardStore :=
  let s1 := if cur_date ≠ s.day_date then
      { s with day_date := cur_date, day_kwh := 0, dirty := true }
    else s
  let inc_kwh := p_w * (dt_s / 3600) / 1000
  if inc_kwh > 0 then
    { s1 with
      total_kwh := s1.total_kwh + inc_kwh
      day_kwh := s1.day_kwh + inc_kwh
      dirty := true }
  else s1

/-- One integration sample: the current local date, the power in W and the
elapsed time in seconds. -/
structure PvSample where
  date : String
  p_w : ℚ
  dt_s : ℚ

/-- A sequence of `integrate` calls folded over the store. -/
def PvForwardStore.integrateSeq (s : PvForwardStore) (xs : List PvSample) :
    PvForwardStore :=
  xs.foldl (fun t x => t.integrate x.date x.p_w x.dt_s) s

/-- `GeneratorService` controller state and configuration from `blueProbe.py`
(`running`, `_last_change`, `start_w`, `stop_w`, `min_run_s`). -/
structure GeneratorService where
  running : Bool
  last_change : ℚ
  start_w : ℚ
  stop_w : ℚ
  min_run_s : ℚ

/-- `GeneratorService.update(passthrough, tuya_power_w, voltage)` from
`blueProbe.py`, restricted to the controller state; the monotonic clock
`time.monotonic()` is passed as `now` and `tuya_power_w is None` is modelled
by `Option`. -/
def GeneratorService.update (g : GeneratorService) (now : ℚ)
    (passthrough : Bool) (tuya_power_w : Option ℚ) : GeneratorService :=
  match passthrough, tuya_power_w with
  | false, _ => { g with running := false }
  | true, none => { g with running := false }
  | true, some p =>
    if ¬ g.running then
      if p ≥ g.start_w then { g with running := true, last_change := now }
      else g
    else
      if now - g.last_change ≥ g.min_run_s ∧ p ≤ g.stop_w then
        { g with running := false, last_change := now }
      else g

end BlueProbe

namespace OutbackVenus

/-- Generator flag state of the `outback_venus.py` main loop
(`gen_running`, `gen_last_change`). -/
structure GenLoopState where
  gen_running : Bool
  gen_last_change : ℚ

/-- The inline generator AND-logic with hysteresis and minimum runtime from
the `outback_venus.py` main loop. -/
def gen_step (st : GenLoopState) (now : ℚ) (outback_state : Int)
    (gen_power_s gen_thr_on gen_thr_off gen_min_runtime_s : ℚ) : GenLoopState :=
  if outback_state = StateMachine.STATE_PASSTHROUGH ∧ gen_power_s ≥ gen_thr_on then
    if ¬ st.gen_running then { gen_running := true, gen_last_change := now }
    else st
  else if st.gen_running ∧ gen_power_s ≤ gen_thr_off ∧
      now - st.gen_last_change ≥ gen_min_runtime_s then
    { gen_running := false, gen_last_change := now }
  else st

end OutbackVenus

namespace BleClient

/-- `STATE_INVERT` from `modules/ble_client.py`. -/
def STATE_INVERT : Int := 1

/-- The retry ladder used by `_schedule_next` in `modules/ble_client.py`. -/
def ladder : List ℚ := [1, 2, 4, 8, 12]

/-- The pre-jitter delay computed by `_schedule_next(success=False)`:
`min(ladder[min(max(consec_fails - 1, 0), len(ladder) - 1)], backoff_max)`. -/
def backoff_delay (consec_fails : ℕ) (backoff_max_s : ℚ) : ℚ :=
  min (ladder.getD (min (max (consec_fails - 1) 0) (ladder.length - 1)) 0)
    backoff_max_s

/-- Client state of `BleOutbackClient` from `modules/ble_client.py`:
configuration, scheduling and round-accounting fields. `connected` models
`self._client is not None`. -/
structure BleOutbackClient where
  min_interval_s : ℚ
  backoff_max_s : ℚ
  next_at : ℚ
  busy : Bool
  ok : ℕ
  fail : ℕ
  consec_fails : ℕ
  connected : Bool
  last_status : String

/-- `BleOutbackClient._schedule_next(success)` from `modules/ble_client.py`
(the same ladder logic also appears in `OutbackReader._schedule_next` in
`blueProbe.py`); the draw `random.uniform(0.0, 0.2)` is passed as `jitter`. -/
def _schedule_next (c : BleOutbackClient) (now : ℚ) (success : Bool)
    (jitter : ℚ) : BleOutbackClient :=
  if success then
    { c with consec_fails := 0, next_at := now + (c.min_interval_s + jitter) }
  else
    { c with
      next_at := now + (backoff_delay c.consec_fails c.backoff_max_s + jitter) }

/-- `struct.unpack('>' + 'h' * (len(buf) // 2), buf)`: big-endian signed
16-bit words of a byte string. -/
def unpack_be_i16 : List ℕ → List ℤ
  | b0 :: b1 :: rest =>
    (let u := b0 % 256 * 256 + b1 % 256
     if u < 32768 then (u : ℤ) else (u : ℤ) - 65536) :: unpack_be_i16 rest
  | _ => []

/-- Python `((v >> 8) & 255) | ((v & 255) << 8)` on an arbitrary-precision
`int`: floor shift and always-non-negative bit masking. -/
def byte_swap16 (v : ℤ) : ℤ := (Int.fdiv v 256).emod 256 + 256 * v.emod 256

/-- `_swap_decode` from `modules/ble_client.py`. -/
def _swap_decode (buf : List ℕ) : List ℤ := (unpack_be_i16 buf).map byte_swap16

/-- The complete round snapshot dict returned by `BleOutbackClient.snapshot`
on success. -/
structure RoundSnapshot where
  power_w : ℚ
  state : Int
  rssi : Int
  pv_w : ℚ
  ac_v : ℚ
  dc_v : ℚ
  dc_i : ℚ
  ts : Int

/-- Oracle for the nondeterministic environment of one round: whether a fresh
connect succeeds, the two characteristic reads (`none` models a timeout or
read error), the RSSI query result, the wall clock `time.time()` and the
jitter drawn by `random.uniform(0.0, 0.2)`. -/
structure RoundEnv where
  connect_ok : Bool
  read_a03 : Option (List ℕ)
  read_a11 : Option (List ℕ)
  rssi : Int
  ts : Int
  jitter : ℚ

/-- Field extraction from the two decoded blocks on the success path of
`snapshot`: `acV = a03[2]*0.1`, `l1 = a03[5]`, `dcV = a03[8]*0.01`,
`dcI = a03[9]`, `pvP = a11[7]`. -/
def decodeRound (a03 a11 : List ℤ) (rssi ts : Int) : RoundSnapshot :=
  { power_w := max 0 ((a03.getD 5 0 : ℤ) : ℚ)
    state := STATE_INVERT
    rssi := rssi
    pv_w := max 0 ((a11.getD 7 0 : ℤ) : ℚ)
    ac_v := max 0 (((a03.getD 2 0 : ℤ) : ℚ) * (1 / 10))
    dc_v := max 0 (((a03.getD 8 0 : ℤ) : ℚ) * (1 / 100))
    dc_i := ((a03.getD 9 0 : ℤ) : ℚ)
    ts := ts }

/-- One failed round (the `except` branches of `snapshot`): increment the
fail counters, drop the connection and schedule with backoff. -/
def failRound (c : BleOutbackClient) (now : ℚ) (status : String) (jitter : ℚ) :
    BleOutbackClient :=
  _schedule_next
    { c with
      fail := c.fail + 1
      consec_fails := c.consec_fails + 1
      last_status := status
      connected := false
      busy := false }
    now false jitter

/-- Whether both raw blocks decode without a `struct.error` or `IndexError`:
even byte lengths and all accessed indices (`a03[2..9]`, `a11[6..7]`)
present. -/
def decode_ok (raw03 raw11 : List ℕ) : Prop :=
  raw03.length % 2 = 0 ∧ raw11.length % 2 = 0 ∧
    10 ≤ (_swap_decode raw03).length ∧ 8 ≤ (_swap_decode raw11).length

instance (raw03 raw11 : List ℕ) : Decidable (decode_ok raw03 raw11) := by
  unfold decode_ok
  infer_instance

/-- `BleOutbackClient.snapshot()` from `modules/ble_client.py`, with the
round environment supplied by the oracle `env`; returns the updated client
state and `some` complete snapshot on success, `none` otherwise. -/
def snapshot (c : BleOutbackClient) (now : ℚ) (env : RoundEnv) :
    BleOutbackClient × Option RoundSnapshot :=
  if now < c.next_at then
    ({ c with last_status := "throttle" }, none)
  else if c.busy then
    ({ c with last_status := "busy" }, none)
  else if ¬ c.connected ∧ ¬ env.connect_ok then
    (failRound c now "error" env.jitter, none)
  else
    match env.read_a03, env.read_a11 with
    | some raw03, some raw11 =>
      if decode_ok raw03 raw11 then
        (_schedule_next
          { c with
            connected := true
            ok := c.ok + 1
            last_status := "ok"
            busy := false }
          now true env.jitter,
         some (decodeRound (_swap_decode raw03) (_swap_decode raw11)
           env.rssi env.ts))
      else (failRound c now "error" env.jitter, none)
    | _, _ => (failRound c now "timeout" env.jitter, none)

end BleClient

namespace Examples

/-- A concrete forward-counter state used for witness instances. -/
def pvStore : BlueProbe.PvForwardStore :=
  { total_kwh := 10, day_kwh := 2, day_date := "2025-01-01", dirty := false }

/-- A concrete generator controller in the Off state
(`start_w = 120`, `stop_w = 60`, `min_run_s = 8`). -/
def genOff : BlueProbe.GeneratorService :=
  { running := false, last_change := 0, start_w := 120, stop_w := 60,
    min_run_s := 8 }

/-- A concrete generator controller in the Running state with its last
transition at time 0. -/
def genOn : BlueProbe.GeneratorService :=
  { running := true, last_change := 0, start_w := 120, stop_w := 60,
    min_run_s := 8 }

/-- A concrete BLE client whose next attempt is due (``next_at = 3``). -/
def bleDue : BleClient.BleOutbackClient :=
  { min_interval_s := 1.8, backoff_max_s := 15, next_at := 3, busy := false,
    ok := 0, fail := 0, consec_fails := 0, connected := false,
    last_status := "init" }

/-- A concrete BLE client that is still throttled at time 5
(``next_at = 10``). -/
def bleThrottled : BleClient.BleOutbackClient :=
  { min_interval_s := 1.8, backoff_max_s := 15, next_at := 10, busy := false,
    ok := 2, fail := 1, consec_fails := 1, connected := true,
    last_status := "ok" }

/-- A round environment in which the first characteristic read fails. -/
def envReadFail : BleClient.RoundEnv :=
  { connect_ok := true, read_a03 := none, read_a11 := none, rssi := 0,
    ts := 0, jitter := 0.1 }

/-- A round environment in which the connect and both reads succeed with
20-byte and 16-byte blocks. -/
def envOk : BleClient.RoundEnv :=
  { connect_ok := true
    read_a03 := some [0, 0, 0, 0, 251, 8, 244, 1, 0, 0, 244, 1, 0, 0, 0, 0,
      92, 10, 0, 0]
    read_a11 := some [0, 0, 0, 0, 0, 0, 0, 0, 0, 0, 0, 0, 176, 4, 76, 2]
    rssi := -60
    ts := 1700000000
    jitter := 0.1 }

end Examples

/-! ## Theorems -/

/-- For `lo ≤ hi` the clamp of `blueProbe.py` agrees with the clamp of
`state_machine.py`. -/
theorem blueProbe_clamp_eq (x lo hi : ℚ) (h : lo ≤ hi) :
    BlueProbe.clamp x lo hi = StateMachine.clamp x lo hi := by
  unfold BlueProbe.clamp StateMachine.clamp
  split_ifs with h1 h2
  · rw [max_eq_left (le_trans (min_le_right _ _) (le_of_lt h1))]
  · rw [min_eq_left (le_of_lt h2), max_eq_right h]
  · rw [min_eq_right (not_lt.mp h2), max_eq_right (not_lt.mp h1)]

/-- Claim C1: for `l1_ac_power ≥ 0` and any battery power `d`,
`compute_pv_ac l1 d` lies in `[0, l1]` and equals
`clamp(l1 - max(0, -d), 0, l1)`, under both clamp implementations (the one
of `state_machine.py` and the one used by `Bridge.tick` in `blueProbe.py`). -/
theorem compute_pv_ac_bounded (l1 d : ℚ) (h : 0 ≤ l1) :
    0 ≤ StateMachine.compute_pv_ac l1 d ∧
    StateMachine.compute_pv_ac l1 d ≤ l1 ∧
    StateMachine.compute_pv_ac l1 d
      = StateMachine.clamp (l1 - max 0 (-d)) 0 l1 ∧
    StateMachine.compute_pv_ac l1 d
      = BlueProbe.clamp (l1 - max 0 (-d)) 0 l1 := by
  refine ⟨le_max_left _ _, ?_, rfl, (blueProbe_clamp_eq _ _ _ h).symm⟩
  exact max_le h (min_le_left _ _)

/-- Concrete instance of C1 at `l1 = 800`, `d = -300`. -/
theorem compute_pv_ac_bounded_witness :
    0 ≤ StateMachine.compute_pv_ac 800 (-300) ∧
    StateMachine.compute_pv_ac 800 (-300) ≤ 800 ∧
    StateMachine.compute_pv_ac 800 (-300)
      = StateMachine.clamp (800 - max 0 (-(-300))) 0 800 ∧
    StateMachine.compute_pv_ac 800 (-300)
      = BlueProbe.clamp (800 - max 0 (-(-300))) 0 800 :=
  compute_pv_ac_bounded 800 (-300) (by norm_num)

/-- Claim C2: the four exact reconciliation cases of the acceptance tests. -/
theorem compute_pv_ac_exact_cases :
    StateMachine.compute_pv_ac 500 0 = 500 ∧
    StateMachine.compute_pv_ac 800 (-300) = 500 ∧
    StateMachine.compute_pv_ac 300 200 = 300 ∧
    StateMachine.compute_pv_ac 400 (-400) = 0 := by
  refine ⟨?_, ?_, ?_, ?_⟩ <;>
    norm_num [StateMachine.compute_pv_ac, StateMachine.clamp]

/-- Claim C10: `compute_pv_ac` is total with a non-negative result at every
input; for `l1_ac_power < 0` it returns `0`, which strictly exceeds
`l1_ac_power`, so the upper bound `result ≤ l1` of C1 needs the stated
precondition `0 ≤ l1`. -/
theorem compute_pv_ac_total_nonneg :
    (∀ l1 d : ℚ, 0 ≤ StateMachine.compute_pv_ac l1 d) ∧
    (∀ l1 d : ℚ, l1 < 0 → StateMachine.compute_pv_ac l1 d = 0) ∧
    (∀ l1 d : ℚ, l1 < 0 → l1 < StateMachine.compute_pv_ac l1 d) := by
  have hz : ∀ l1 d : ℚ, l1 < 0 → StateMachine.compute_pv_ac l1 d = 0 := by
    intro l1 d h
    unfold StateMachine.compute_pv_ac StateMachine.clamp
    have hk : (0:ℚ) ≤ max 0 (-d) := le_max_left _ _
    rw [min_eq_right (by linarith), max_eq_left (by linarith)]
  refine ⟨fun l1 d => le_max_left _ _, hz, fun l1 d h => ?_⟩
  rw [hz l1 d h]
  exact h

/-- Concrete instance of C10 at `l1 = -100`, `d = 0`. -/
theorem compute_pv_ac_total_nonneg_witness :
    0 ≤ StateMachine.compute_pv_ac (-100) 0 ∧
    StateMachine.compute_pv_ac (-100) 0 = 0 ∧
    (-100 : ℚ) < StateMachine.compute_pv_ac (-100) 0 :=
  ⟨compute_pv_ac_total_nonneg.1 (-100) 0,
   compute_pv_ac_total_nonneg.2.1 (-100) 0 (by norm_num),
   compute_pv_ac_total_nonneg.2.2 (-100) 0 (by norm_num)⟩

/-- Claim C3: `classify_state` evaluates its rules in order with the first
match winning, and the concrete passthrough case
`(pv_ac = 500, l1_out = 1600, batt_p = -100, passthrough, gen = 1200)`
classifies as `GEN_PASSTHROUGH`. -/
theorem classify_state_rule_order :
    (∀ (pv l1 bp : ℚ) (st : Int) (gp eps : ℚ),
      (st = StateMachine.STATE_PASSTHROUGH ∧ gp > eps →
        StateMachine.classify_state pv l1 bp st gp eps = "GEN_PASSTHROUGH") ∧
      (¬(st = StateMachine.STATE_PASSTHROUGH ∧ gp > eps) →
        pv ≤ eps ∧ l1 > eps →
        StateMachine.classify_state pv l1 bp st gp eps = "NIGHT_BATT") ∧
      (¬(st = StateMachine.STATE_PASSTHROUGH ∧ gp > eps) →
        ¬(pv ≤ eps ∧ l1 > eps) → |bp| ≤ eps ∧ |pv - l1| ≤ eps →
        StateMachine.classify_state pv l1 bp st gp eps = "DAY_PV_DIRECT") ∧
      (¬(st = StateMachine.STATE_PASSTHROUGH ∧ gp > eps) →
        ¬(pv ≤ eps ∧ l1 > eps) → ¬(|bp| ≤ eps ∧ |pv - l1| ≤ eps) →
        pv - l1 ≥ eps →
        StateMachine.classify_state pv l1 bp st gp eps = "DAY_PV_SURPLUS") ∧
      (¬(st = StateMachine.STATE_PASSTHROUGH ∧ gp > eps) →
        ¬(pv ≤ eps ∧ l1 > eps) → ¬(|bp| ≤ eps ∧ |pv - l1| ≤ eps) →
        ¬(pv - l1 ≥ eps) → pv - l1 ≤ -eps ∧ bp < -eps →
        StateMachine.classify_state pv l1 bp st gp eps = "DAY_PV_PLUS_BATT") ∧
      (¬(st = StateMachine.STATE_PASSTHROUGH ∧ gp > eps) →
        ¬(pv ≤ eps ∧ l1 > eps) → ¬(|bp| ≤ eps ∧ |pv - l1| ≤ eps) →
        ¬(pv - l1 ≥ eps) → ¬(pv - l1 ≤ -eps ∧ bp < -eps) →
        StateMachine.classify_state pv l1 bp st gp eps =
          if pv > eps then "DAY_PV_DIRECT" else "NIGHT_BATT")) ∧
    StateMachine.classify_state 500 1600 (-100) 3 1200 50
      = "GEN_PASSTHROUGH" := by
  constructor
  · intro pv l1 bp st gp eps
    unfold StateMachine.classify_state
    refine ⟨fun h1 => ?_, fun h1 h2 => ?_, fun h1 h2 h3 => ?_,
      fun h1 h2 h3 h4 => ?_, fun h1 h2 h3 h4 h5 => ?_,
      fun h1 h2 h3 h4 h5 => ?_⟩
    · rw [if_pos h1]
    · rw [if_neg h1, if_pos h2]
    · rw [if_neg h1, if_neg h2, if_pos h3]
    · rw [if_neg h1, if_neg h2, if_neg h3, if_pos h4]
    · rw [if_neg h1, if_neg h2, if_neg h3, if_neg h4, if_pos h5]
    · rw [if_neg h1, if_neg h2, if_neg h3, if_neg h4, if_neg h5]
  · norm_num [StateMachine.classify_state, StateMachine.STATE_PASSTHROUGH]

/-- Concrete instances of the C3 rule order at `eps = 50`, one per rule. -/
theorem classify_state_rule_order_witness :
    StateMachine.classify_state 500 1600 (-100) 3 1200 50
      = "GEN_PASSTHROUGH" ∧
    StateMachine.classify_state 0 300 (-200) 1 0 50 = "NIGHT_BATT" ∧
    StateMachine.classify_state 500 500 0 1 0 50 = "DAY_PV_DIRECT" ∧
    StateMachine.classify_state 800 500 0 1 0 50 = "DAY_PV_SURPLUS" ∧
    StateMachine.classify_state 200 600 (-300) 1 0 50 = "DAY_PV_PLUS_BATT" ∧
    StateMachine.classify_state 100 90 200 1 0 50 = "DAY_PV_DIRECT" :=
  ⟨classify_state_rule_order.2,
   ((classify_state_rule_order.1 0 300 (-200) 1 0 50).2.1
     (by norm_num [StateMachine.STATE_PASSTHROUGH]) (by norm_num)),
   ((classify_state_rule_order.1 500 500 0 1 0 50).2.2.1
     (by norm_num [StateMachine.STATE_PASSTHROUGH]) (by norm_num)
     (by norm_num)),
   ((classify_state_rule_order.1 800 500 0 1 0 50).2.2.2.1
     (by norm_num [StateMachine.STATE_PASSTHROUGH]) (by norm_num)
     (by norm_num) (by norm_num)),
   ((classify_state_rule_order.1 200 600 (-300) 1 0 50).2.2.2.2.1
     (by norm_num [StateMachine.STATE_PASSTHROUGH]) (by norm_num)
     (by norm_num [abs_of_nonpos]) (by norm_num) (by norm_num)),
   (by
     have h := (classify_state_rule_order.1 100 90 200 1 0 50).2.2.2.2.2
       (by norm_num [StateMachine.STATE_PASSTHROUGH]) (by norm_num)
       (by norm_num [abs_of_nonneg]) (by norm_num) (by norm_num)
     rw [h]
     norm_num)⟩

/-- One `integrate` step never decreases `total_kwh` (no energy is ever
subtracted, for any sign of the inputs). -/
theorem integrate_total_step (s : BlueProbe.PvForwardStore) (d : String)
    (p dt : ℚ) : s.total_kwh ≤ (s.integrate d p dt).total_kwh := by
  simp only [BlueProbe.PvForwardStore.integrate]
  split_ifs with h1 h2 <;> simp <;> linarith

/-- Claim C4: over any sequence of `integrate` calls, `total_kwh`
(lifetime) never decreases; within an unchanged calendar day `day_kwh` is
non-decreasing; on a date change `day_kwh` is reset to 0 before the current
increment is added and the new date is adopted; non-positive power with
non-negative elapsed time contributes nothing (nothing is subtracted). -/
theorem pv_forward_counter_props :
    (∀ (s : BlueProbe.PvForwardStore) (xs : List BlueProbe.PvSample),
      s.total_kwh ≤ (s.integrateSeq xs).total_kwh) ∧
    (∀ (s : BlueProbe.PvForwardStore) (d : String) (p dt : ℚ),
      d = s.day_date → s.day_kwh ≤ (s.integrate d p dt).day_kwh) ∧
    (∀ (s : BlueProbe.PvForwardStore) (d : String) (p dt : ℚ),
      d ≠ s.day_date →
      (s.integrate d p dt).day_date = d ∧
      (s.integrate d p dt).day_kwh =
        (if p * (dt / 3600) / 1000 > 0 then p * (dt / 3600) / 1000 else 0)) ∧
    (∀ (s : BlueProbe.PvForwardStore) (d : String) (p dt : ℚ),
      p ≤ 0 → 0 ≤ dt →
      (s.integrate d p dt).total_kwh = s.total_kwh ∧
      (s.integrate d p dt).day_kwh =
        (if d = s.day_date then s.day_kwh else 0)) := by
  refine ⟨?_, ?_, ?_, ?_⟩
  · intro s xs
    induction xs generalizing s with
    | nil => simp [BlueProbe.PvForwardStore.integrateSeq]
    | cons x xs ih =>
      have hstep := integrate_total_step s x.date x.p_w x.dt_s
      have htail := ih (s.integrate x.date x.p_w x.dt_s)
      simp only [BlueProbe.PvForwardStore.integrateSeq, List.foldl_cons] at *
      linarith
  · intro s d p dt h
    subst h
    simp only [BlueProbe.PvForwardStore.integrate, ne_eq, not_true_eq_false,
      if_false]
    split_ifs with hi
    · simp
      linarith
    · simp
  · intro s d p dt h
    simp only [BlueProbe.PvForwardStore.integrate]
    rw [if_pos h]
    split_ifs with hi <;> simp
  · intro s d p dt hp hdt
    have hpd : p * dt ≤ 0 := by nlinarith [mul_nonneg (neg_nonneg.mpr hp) hdt]
    have hinc : ¬ (p * (dt / 3600) / 1000 > 0) := by
      rw [not_lt]
      nlinarith [hpd]
    simp only [BlueProbe.PvForwardStore.integrate, if_neg hinc]
    constructor
    · split_ifs <;> rfl
    · split_ifs with hd1 hd2
      · rfl
      · rfl
      · exact absurd (not_not.mp hd1) hd2

/-- Concrete instances of C4 on `Examples.pvStore` (same-day increment,
date rollover, and a non-positive power sample). -/
theorem pv_forward_counter_props_witness :
    Examples.pvStore.total_kwh ≤
      (Examples.pvStore.integrateSeq
        [⟨"2025-01-01", 100, 1⟩, ⟨"2025-01-02", -50, 1⟩]).total_kwh ∧
    Examples.pvStore.day_kwh ≤
      (Examples.pvStore.integrate "2025-01-01" 100 1).day_kwh ∧
    (Examples.pvStore.integrate "2025-01-02" 100 1).day_date = "2025-01-02" ∧
    (Examples.pvStore.integrate "2025-01-02" 100 1).day_kwh =
      (if (100 : ℚ) * (1 / 3600) / 1000 > 0 then (100 : ℚ) * (1 / 3600) / 1000
       else 0) ∧
    (Examples.pvStore.integrate "2025-01-01" (-50) 1).total_kwh =
      Examples.pvStore.total_kwh ∧
    (Examples.pvStore.integrate "2025-01-01" (-50) 1).day_kwh =
      (if "2025-01-01" = Examples.pvStore.day_date then Examples.pvStore.day_kwh
       else 0) :=
  ⟨pv_forward_counter_props.1 Examples.pvStore _,
   pv_forward_counter_props.2.1 Examples.pvStore _ 100 1 rfl,
   (pv_forward_counter_props.2.2.1 Examples.pvStore _ 100 1 (by decide)).1,
   (pv_forward_counter_props.2.2.1 Examples.pvStore _ 100 1 (by decide)).2,
   (pv_forward_counter_props.2.2.2 Examples.pvStore _ (-50) 1 (by norm_num)
     (by norm_num)).1,
   (pv_forward_counter_props.2.2.2 Examples.pvStore _ (-50) 1 (by norm_num)
     (by norm_num)).2⟩

/-- Claim C5 counterexample: in the inline generator logic of
`outback_venus.py`, an update with passthrough inactive
(`outback_state = STATE_INVERT`) does not force the generator Off: with the
generator running, smoothed power 100 W (above the 60 W stop threshold) and
100 s elapsed since the last transition, it stays Running. -/
theorem gen_not_forced_off_counterexample :
    (OutbackVenus.gen_step { gen_running := true, gen_last_change := 0 }
      100 StateMachine.STATE_INVERT 100 120 60 8).gen_running = true := by
  norm_num [OutbackVenus.gen_step, StateMachine.STATE_INVERT,
    StateMachine.STATE_PASSTHROUGH]

/-- Claim C5 (amended): in `GeneratorService.update` of `blueProbe.py`,
every update with passthrough inactive (or with a `None` power reading)
leaves the generator Off immediately, regardless of power, elapsed runtime
or thresholds; the inline generator logic of `outback_venus.py` does not
have this forced-off path. -/
theorem gen_service_forced_off :
    ∀ (g : BlueProbe.GeneratorService) (now : ℚ) (pt : Bool) (p : Option ℚ),
      (g.update now false p).running = false ∧
      (g.update now pt none).running = false := by
  intro g now pt p
  constructor
  · cases p <;> rfl
  · cases pt <;> rfl

/-- Claim C6: with passthrough active, an update from Off with power
strictly below `start_w` stays Off, and an update from Running with power
at or below `stop_w` but elapsed time below `min_run_s` stays Running —
both for `GeneratorService.update` of `blueProbe.py` and for the inline
generator step of `outback_venus.py`. -/
theorem gen_hysteresis_min_runtime :
    ∀ (g : BlueProbe.GeneratorService) (now p : ℚ)
      (st : OutbackVenus.GenLoopState) (gp thr_on thr_off mrs : ℚ),
      (g.running = false → p < g.start_w →
        (g.update now true (some p)).running = false) ∧
      (g.running = true → p ≤ g.stop_w → now - g.last_change < g.min_run_s →
        (g.update now true (some p)).running = true) ∧
      (st.gen_running = false → gp < thr_on →
        (OutbackVenus.gen_step st now StateMachine.STATE_PASSTHROUGH gp thr_on
          thr_off mrs).gen_running = false) ∧
      (st.gen_running = true → now - st.gen_last_change < mrs →
        (OutbackVenus.gen_step st now StateMachine.STATE_PASSTHROUGH gp thr_on
          thr_off mrs).gen_running = true) := by
  intro g now p st gp thr_on thr_off mrs
  refine ⟨fun hr hp => ?_, fun hr hp ht => ?_, fun hr hp => ?_,
    fun hr ht => ?_⟩
  · simp [BlueProbe.GeneratorService.update, hr, not_le.mpr hp]
  · simp [BlueProbe.GeneratorService.update, hr, not_le.mpr ht]
  · simp [OutbackVenus.gen_step, StateMachine.STATE_PASSTHROUGH, hr,
      not_le.mpr hp]
  · by_cases hgp : gp ≥ thr_on <;>
      simp [OutbackVenus.gen_step, StateMachine.STATE_PASSTHROUGH, hr, hgp,
        not_le.mpr ht]

/-- Concrete instances of C6: power 100 W below `start_w = 120` keeps the
Off controller Off; power 50 W at 4 s of an 8 s minimum runtime keeps the
Running controller Running; likewise for the `outback_venus.py` step. -/
theorem gen_hysteresis_min_runtime_witness :
    (Examples.genOff.update 4 true (some 100)).running = false ∧
    (Examples.genOn.update 4 true (some 50)).running = true ∧
    (OutbackVenus.gen_step { gen_running := false, gen_last_change := 0 } 4
      StateMachine.STATE_PASSTHROUGH 100 120 60 8).gen_running = false ∧
    (OutbackVenus.gen_step { gen_running := true, gen_last_change := 0 } 4
      StateMachine.STATE_PASSTHROUGH 50 120 60 8).gen_running = true :=
  ⟨(gen_hysteresis_min_runtime Examples.genOff 4 100 ⟨false, 0⟩ 0 0 0 0).1 rfl
     (by norm_num [Examples.genOff]),
   (gen_hysteresis_min_runtime Examples.genOn 4 50 ⟨false, 0⟩ 0 0 0 0).2.1 rfl
     (by norm_num [Examples.genOn]) (by norm_num [Examples.genOn]),
   (gen_hysteresis_min_runtime Examples.genOff 4 0 ⟨false, 0⟩ 100 120 60
     8).2.2.1 rfl (by norm_num),
   (gen_hysteresis_min_runtime Examples.genOff 4 0 ⟨true, 0⟩ 50 120 60
     8).2.2.2 rfl (by norm_num)⟩

/-- Claim C7: after a failed round with `consec_fails = n ≥ 1` the
pre-jitter delay equals `min(ladder[min(n-1, len(ladder)-1)], backoff_max)`;
the delays are non-decreasing in the failure count and capped at
`backoff_max`; with jitter in `[0, 0.2]` the scheduled time lies between the
base delay and the base delay plus 0.2 above `now`; a success resets
`consec_fails` to 0 and schedules at `now + min_interval + jitter`. -/
theorem backoff_ladder_props :
    (∀ (n : ℕ) (bm : ℚ), 1 ≤ n →
      BleClient.backoff_delay n bm =
        min (BleClient.ladder.getD (min (n - 1) (BleClient.ladder.length - 1))
          0) bm) ∧
    (∀ (n : ℕ) (bm : ℚ),
      BleClient.backoff_delay n bm ≤ BleClient.backoff_delay (n + 1) bm) ∧
    (∀ (n : ℕ) (bm : ℚ), BleClient.backoff_delay n bm ≤ bm) ∧
    (∀ (c : BleClient.BleOutbackClient) (now j : ℚ), 0 ≤ j → j ≤ 0.2 →
      now + BleClient.backoff_delay c.consec_fails c.backoff_max_s ≤
        (BleClient._schedule_next c now false j).next_at ∧
      (BleClient._schedule_next c now false j).next_at ≤
        now + BleClient.backoff_delay c.consec_fails c.backoff_max_s + 0.2) ∧
    (∀ (c : BleClient.BleOutbackClient) (now j : ℚ),
      (BleClient._schedule_next c now true j).consec_fails = 0 ∧
      (BleClient._schedule_next c now true j).next_at =
        now + (c.min_interval_s + j)) := by
  refine ⟨?_, ?_, ?_, ?_, ?_⟩
  · intro n bm h
    unfold BleClient.backoff_delay
    rw [max_eq_left (Nat.zero_le _)]
  · intro n bm
    rcases Nat.lt_or_ge n 5 with h | h
    · interval_cases n <;>
        exact min_le_min (by decide) le_rfl
    · have e1 : min (max (n - 1) 0) (BleClient.ladder.length - 1) = 4 := by
        simp [BleClient.ladder]
        omega
      have e2 : min (max (n + 1 - 1) 0) (BleClient.ladder.length - 1) = 4 := by
        simp [BleClient.ladder]
        omega
      unfold BleClient.backoff_delay
      rw [e1, e2]
  · intro n bm
    exact min_le_right _ _
  · intro c now j hj1 hj2
    constructor <;> simp [BleClient._schedule_next] <;> linarith
  · intro c now j
    constructor <;> simp [BleClient._schedule_next]

/-- Concrete instances of C7: the delay formula at the third consecutive
failure, the jittered failure schedule and the success reset on
`Examples.bleThrottled`. -/
theorem backoff_ladder_props_witness :
    BleClient.backoff_delay 3 15 =
      min (BleClient.ladder.getD (min (3 - 1) (BleClient.ladder.length - 1)) 0)
        15 ∧
    (20 + BleClient.backoff_delay Examples.bleThrottled.consec_fails
        Examples.bleThrottled.backoff_max_s ≤
      (BleClient._schedule_next Examples.bleThrottled 20 false 0.1).next_at ∧
      (BleClient._schedule_next Examples.bleThrottled 20 false 0.1).next_at ≤
        20 + BleClient.backoff_delay Examples.bleThrottled.consec_fails
          Examples.bleThrottled.backoff_max_s + 0.2) ∧
    ((BleClient._schedule_next Examples.bleThrottled 20 true 0.1).consec_fails
        = 0 ∧
      (BleClient._schedule_next Examples.bleThrottled 20 true 0.1).next_at =
        20 + (Examples.bleThrottled.min_interval_s + 0.1)) :=
  ⟨backoff_ladder_props.1 3 15 (by norm_num),
   backoff_ladder_props.2.2.2.1 Examples.bleThrottled 20 0.1 (by norm_num)
     (by norm_num),
   backoff_ladder_props.2.2.2.2 Examples.bleThrottled 20 0.1⟩

/-- Claim C8: a round either yields a complete snapshot with every field
decoded from the two characteristic reads of that same round, or yields
Unavailable; a failure of either read, or of the connect, discards the
whole round and increments the fail and consecutive-failure counters. -/
theorem ble_snapshot_atomicity :
    ∀ (c : BleClient.BleOutbackClient) (now : ℚ) (env : BleClient.RoundEnv),
      ¬ now < c.next_at → c.busy = false →
      (∀ snap, (BleClient.snapshot c now env).2 = some snap →
        ∃ raw03 raw11,
          env.read_a03 = some raw03 ∧ env.read_a11 = some raw11 ∧
          snap.power_w =
            max 0 (((BleClient._swap_decode raw03).getD 5 0 : ℤ) : ℚ) ∧
          snap.state = BleClient.STATE_INVERT ∧
          snap.rssi = env.rssi ∧
          snap.pv_w =
            max 0 (((BleClient._swap_decode raw11).getD 7 0 : ℤ) : ℚ) ∧
          snap.ac_v =
            max 0 ((((BleClient._swap_decode raw03).getD 2 0 : ℤ) : ℚ)
              * (1 / 10)) ∧
          snap.dc_v =
            max 0 ((((BleClient._swap_decode raw03).getD 8 0 : ℤ) : ℚ)
              * (1 / 100)) ∧
          snap.dc_i = (((BleClient._swap_decode raw03).getD 9 0 : ℤ) : ℚ) ∧
          snap.ts = env.ts) ∧
      (env.read_a03 = none ∨ env.read_a11 = none →
        (BleClient.snapshot c now env).2 = none ∧
        (BleClient.snapshot c now env).1.fail = c.fail + 1 ∧
        (BleClient.snapshot c now env).1.consec_fails = c.consec_fails + 1) ∧
      (c.connected = false → env.connect_ok = false →
        (BleClient.snapshot c now env).2 = none ∧
        (BleClient.snapshot c now env).1.fail = c.fail + 1 ∧
        (BleClient.snapshot c now env).1.consec_fails = c.consec_fails + 1) := by
  intro c now env h1 h2
  refine ⟨?_, ?_, ?_⟩
  · intro snap hsnap
    by_cases hc : c.connected = false ∧ env.connect_ok = false
    · simp [BleClient.snapshot, if_neg h1, h2, hc] at hsnap
    · rcases h03 : env.read_a03 with _ | raw03
      · simp [BleClient.snapshot, if_neg h1, h2, hc, h03] at hsnap
      · rcases h11 : env.read_a11 with _ | raw11
        · simp [BleClient.snapshot, if_neg h1, h2, hc, h03, h11] at hsnap
        · by_cases hdec : BleClient.decode_ok raw03 raw11
          · refine ⟨raw03, raw11, rfl, rfl, ?_⟩
            have hs : snap = BleClient.decodeRound
                (BleClient._swap_decode raw03) (BleClient._swap_decode raw11)
                env.rssi env.ts := by
              simp [BleClient.snapshot, if_neg h1, h2, hc, h03, h11, hdec]
                at hsnap
              exact hsnap.symm
            subst hs
            exact ⟨rfl, rfl, rfl, rfl, rfl, rfl, rfl, rfl⟩
          · simp [BleClient.snapshot, if_neg h1, h2, hc, h03, h11, hdec]
              at hsnap
  · intro hr
    by_cases hc : c.connected = false ∧ env.connect_ok = false
    · simp [BleClient.snapshot, if_neg h1, h2, hc, BleClient.failRound,
        BleClient._schedule_next]
    · rcases h03 : env.read_a03 with _ | raw03
      · simp [BleClient.snapshot, if_neg h1, h2, hc, h03, BleClient.failRound,
          BleClient._schedule_next]
      · rcases h11 : env.read_a11 with _ | raw11
        · simp [BleClient.snapshot, if_neg h1, h2, hc, h03, h11,
            BleClient.failRound, BleClient._schedule_next]
        · rcases hr with hr | hr
          · simp [h03] at hr
          · simp [h11] at hr
  · intro hcon hok
    have hc : c.connected = false ∧ env.connect_ok = false := ⟨hcon, hok⟩
    simp [BleClient.snapshot, if_neg h1, h2, hc, BleClient.failRound,
      BleClient._schedule_next]

/-- Concrete instance of C8 on `Examples.bleDue`: a round whose first read
fails yields Unavailable and bumps the fail and consecutive-failure
counters. -/
theorem ble_snapshot_atomicity_witness :
    (BleClient.snapshot Examples.bleDue 5 Examples.envReadFail).2 = none ∧
    (BleClient.snapshot Examples.bleDue 5 Examples.envReadFail).1.fail =
      Examples.bleDue.fail + 1 ∧
    (BleClient.snapshot Examples.bleDue 5 Examples.envReadFail).1.consec_fails
      = Examples.bleDue.consec_fails + 1 :=
  (ble_snapshot_atomicity Examples.bleDue 5 Examples.envReadFail
    (by norm_num [Examples.bleDue]) rfl).2.1 (Or.inl rfl)

/-- Claim C9 counterexample: at a concrete throttled call (time 5, next
attempt at 10) the observable status string is `"throttle"`, not
`"throttled"` as the claim states. -/
theorem ble_throttle_status_counterexample :
    (5 : ℚ) < Examples.bleThrottled.next_at ∧
    (BleClient.snapshot Examples.bleThrottled 5
      Examples.envReadFail).1.last_status ≠ "throttled" := by
  constructor
  · norm_num [Examples.bleThrottled]
  · have hs : (BleClient.snapshot Examples.bleThrottled 5
        Examples.envReadFail).1.last_status = "throttle" := by
      have h : (5 : ℚ) < Examples.bleThrottled.next_at := by
        norm_num [Examples.bleThrottled]
      simp [BleClient.snapshot, if_pos h]
    rw [hs]
    decide

/-- Claim C9 (amended): a call before `next_attempt_at` is a no-op that
returns Unavailable with status `"throttle"`: it leaves `next_at`,
`consec_fails` and the ok and fail counters unchanged, so it is not counted
as a failure and neither advances nor resets the backoff ladder. -/
theorem ble_throttle_noop :
    ∀ (c : BleClient.BleOutbackClient) (now : ℚ) (env : BleClient.RoundEnv),
      now < c.next_at →
      (BleClient.snapshot c now env).2 = none ∧
      (BleClient.snapshot c now env).1.last_status = "throttle" ∧
      (BleClient.snapshot c now env).1.next_at = c.next_at ∧
      (BleClient.snapshot c now env).1.consec_fails = c.consec_fails ∧
      (BleClient.snapshot c now env).1.ok = c.ok ∧
      (BleClient.snapshot c now env).1.fail = c.fail := by
  intro c now env h
  simp [BleClient.snapshot, if_pos h]

/-- Concrete instance of the amended C9 on `Examples.bleThrottled`. -/
theorem ble_throttle_noop_witness :
    (BleClient.snapshot Examples.bleThrottled 5 Examples.envReadFail).2
      = none ∧
    (BleClient.snapshot Examples.bleThrottled 5
      Examples.envReadFail).1.last_status = "throttle" ∧
    (BleClient.snapshot Examples.bleThrottled 5
      Examples.envReadFail).1.next_at = Examples.bleThrottled.next_at ∧
    (BleClient.snapshot Examples.bleThrottled 5
      Examples.envReadFail).1.consec_fails =
        Examples.bleThrottled.consec_fails ∧
    (BleClient.snapshot Examples.bleThrottled 5 Examples.envReadFail).1.ok =
      Examples.bleThrottled.ok ∧
    (BleClient.snapshot Examples.bleThrottled 5 Examples.envReadFail).1.fail =
      Examples.bleThrottled.fail :=
  ble_throttle_noop Examples.bleThrottled 5 Examples.envReadFail
    (by norm_num [Examples.bleThrottled])
